import Mathlib

/-!
Verification of the filtering-and-aggregation pipeline of the Horta Escolar
dashboard (src/app.py, src/app2.py, src/app_enhanced.py).

Tabular data is embedded shallowly: a pandas DataFrame becomes a record
holding column-presence flags (modelling the code's defensive
`'col' in df.columns` probes) and a list of rows; a nullable cell becomes an
`Option`; `pd.to_numeric(..., errors='coerce')` on an identifier column is
modelled by the row already carrying `Option Int` (none = NaN after
coercion); dates are day numbers (`Int`), timezone-naive per the data model.
-/

/-- One row of a plantios table after the load-time joins of
app_enhanced.py lines 68-71 / app2.py lines 48-49: identifier and date
columns are integer-or-missing, enrichment names are string-or-missing,
notes are text-or-missing (text as a list of characters so that the
case-insensitive substring search of app2.py can be modelled). -/
structure PlantioRow where
  plantio_id : Option Int
  canteiro_id : Option Int
  especie_id : Option Int
  data_plantio : Option Int
  especie_nome : Option String
  canteiro_nome : Option String
  responsavel : Option String
  notas : Option (List Char)
  deriving DecidableEq, Repr

/-- The plantios DataFrame: column-presence flags model the code's
`'col' in df.columns` checks (app_enhanced.py lines 110, 113, 115, 117,
156, 406, 408). -/
structure PlantiosDF where
  hasPlantioId : Bool
  hasCanteiroId : Bool
  hasDataPlantio : Bool
  hasEspecieNome : Bool
  hasCanteiroNome : Bool
  hasResponsavel : Bool
  rows : List PlantioRow
  deriving DecidableEq, Repr

/-- One row of a child table (colheitas / observacoes / eventos_manejo):
`pid` is the `plantio_id` cell after `pd.to_numeric(..., errors='coerce')`
(none = coercion failure), `qty` is `quantidade_colhida` (unused for
observations and events). -/
structure ChildRow where
  pid : Option Int
  qty : Option ℚ
  deriving DecidableEq, Repr

/-- A child DataFrame with column-presence flags for `plantio_id`
(app_enhanced.py line 166) and `quantidade_colhida`. -/
structure ChildDF where
  hasPidCol : Bool
  hasQtyCol : Bool
  rows : List ChildRow
  deriving DecidableEq, Repr

/-- app_enhanced.py lines 155-157: the selected-ID set
`plantio_ids = set(pd.to_numeric(plantios_f['plantio_id'],
errors='coerce').dropna().astype(int))`, guarded by
`not plantios_f.empty and 'plantio_id' in plantios_f.columns`.
Modelled as a duplicate-free list. -/
def plantio_ids_of (df : PlantiosDF) : List Int :=
  if df.rows.isEmpty || !df.hasPlantioId then []
  else (df.rows.filterMap (·.plantio_id)).dedup

/-- app_enhanced.py lines 159-172, `filter_by_plantios_table`:
empty/None input returns `pd.DataFrame()`; when the table has a
`plantio_id` column, the ids are coerced with `fillna(-1)` and the rows
whose (sentinel-filled) id is in `plantio_ids` are kept — an all-False
mask when `plantio_ids` is empty; a table without the column is returned
as an unfiltered copy. -/
def filter_by_plantios_table (plantio_ids : List Int) (df : ChildDF) : ChildDF :=
  if df.rows.isEmpty then ⟨false, false, []⟩
  else if df.hasPidCol then
    if plantio_ids.isEmpty then { df with rows := [] }
    else { df with rows := df.rows.filter (fun r => decide ((r.pid.getD (-1)) ∈ plantio_ids)) }
  else df

/-- The filter configuration consumed by app_enhanced.py's
`filter_plantios` (sidebar values of lines 83-94): a normalized date range
(already reduced to start/end day numbers, lines 101-108) and the three
exact-match selectors with their "Todas"/"Todos" sentinels. -/
structure Criteria where
  dr_start : Int
  dr_end : Int
  especie_sel : String
  canteiro_sel : String
  responsavel_sel : String
  deriving DecidableEq, Repr

/-- app_enhanced.py line 112: the date-range mask
`(pd.to_datetime(df['data_plantio'], errors='coerce').dt.date >= s) &
(... <= e)` — an unparseable date (NaT) compares False on both sides. -/
def dateInRange (c : Criteria) (d : Option Int) : Bool :=
  match d with
  | some d => decide (c.dr_start ≤ d) && decide (d ≤ c.dr_end)
  | none => false

/-- app_enhanced.py lines 98-119, `filter_plantios`: empty table returned
as-is; missing `data_plantio` column returned unchanged; otherwise the
date mask is applied, then each exact-match selector is conjoined when it
is not the "Todas"/"Todos" sentinel and its column is present (a null
cell never equals the selected string, matching pandas `NaN == s`). -/
def filter_plantios (c : Criteria) (df : PlantiosDF) : PlantiosDF :=
  if df.rows.isEmpty then df
  else if !df.hasDataPlantio then df
  else
    let r1 := df.rows.filter (fun r => dateInRange c r.data_plantio)
    let r2 := if c.especie_sel != "Todas" && df.hasEspecieNome then
        r1.filter (fun r => decide (r.especie_nome = some c.especie_sel)) else r1
    let r3 := if c.canteiro_sel != "Todos" && df.hasCanteiroNome then
        r2.filter (fun r => decide (r.canteiro_nome = some c.canteiro_sel)) else r2
    let r4 := if c.responsavel_sel != "Todos" && df.hasResponsavel then
        r3.filter (fun r => decide (r.responsavel = some c.responsavel_sel)) else r3
    { df with rows := r4 }

/-- The caller-facing run of `filter_plantios`: the source performs no
validation of the configuration and raises nothing — every call returns
normally, so the error channel is never used. -/
def filter_plantios_run (c : Criteria) (df : PlantiosDF) : Except String PlantiosDF :=
  Except.ok (filter_plantios c df)

/-- Whether an `Except` result is a normal (non-error) return. -/
def exceptIsOk {ε α : Type} : Except ε α → Bool
  | .ok _ => true
  | .error _ => false

/-- app_enhanced.py line 339: dashboard KPI `total_colhido` =
`pd.to_numeric(colheitas_f.get('quantidade_colhida', empty), 'coerce').sum()
if not colheitas_f.empty else 0` — a missing column gives an empty series
(sum 0), and NaN values are skipped by the pandas sum. -/
def dash_total_colhido (cf : ChildDF) : ℚ :=
  if cf.rows.isEmpty then 0
  else if cf.hasQtyCol then (cf.rows.map (fun r => r.qty.getD 0)).sum
  else 0

/-- app_enhanced.py line 341: dashboard KPI `plantios_colhidos` =
`colheitas_f['plantio_id'].nunique()` when the filtered colheitas table is
non-empty and has the column, else 0; `nunique` ignores nulls. -/
def dash_plantios_colhidos (cf : ChildDF) : Nat :=
  if !cf.rows.isEmpty && cf.hasPidCol then (cf.rows.filterMap (·.pid)).dedup.length
  else 0

/-- app_enhanced.py lines 406-407: per-bed totals
`plantios_f.groupby('canteiro_id').plantio_id.nunique()` (guarded by a
non-empty table with a `canteiro_id` column), read back with
`totals.get(cid, 0)` — a bed absent from the selection reports 0. -/
def totals_count (pf : PlantiosDF) (cid : Int) : Nat :=
  if !pf.rows.isEmpty && pf.hasCanteiroId then
    ((pf.rows.filter (fun r => decide (r.canteiro_id = some cid))).filterMap
      (·.plantio_id)).dedup.length
  else 0

/-- app_enhanced.py lines 408-410: harvested plantings per bed — the
filtered colheitas inner-merged with the filtered plantios on
`plantio_id`, then `groupby('canteiro_id').plantio_id.nunique()`, read
back with `harvested.get(cid, 0)`. -/
def harvested_count (cf : ChildDF) (pf : PlantiosDF) (cid : Int) : Nat :=
  if !cf.rows.isEmpty && cf.hasPidCol && !pf.rows.isEmpty && pf.hasPlantioId then
    ((cf.rows.filterMap (·.pid)).filter (fun i =>
      pf.rows.any (fun r =>
        decide (r.plantio_id = some i) && decide (r.canteiro_id = some cid)))).dedup.length
  else 0

/-- app_enhanced.py line 418 / app2.py line 144: per-bed success rate
`harvested_cnt / total if total > 0 else 0`. -/
def bed_rate (total harvested : Nat) : ℚ :=
  if 0 < total then (harvested : ℚ) / total else 0

/-- The three bed-status bands of app_enhanced.py line 420 / app2.py
line 153 (rendered there as the colors green / amber / red). -/
inductive BedStatus
  | good
  | attention
  | critical
  deriving DecidableEq, Repr

/-- app_enhanced.py line 420: `"#1B5E20" if rate >= 0.6 else ("#F57F17"
if rate >= 0.25 else "#B71C1C")` — the same thresholds as app2.py
line 153. -/
def classify_rate (rate : ℚ) : BedStatus :=
  if 0.6 ≤ rate then .good
  else if 0.25 ≤ rate then .attention
  else .critical

/-- The bed-status card of app_enhanced.py lines 413-430 for one bed id:
(total plantings, harvested plantings, rate, status band). -/
def bed_card (pf : PlantiosDF) (cf : ChildDF) (cid : Int) : Nat × Nat × ℚ × BedStatus :=
  let t := totals_count pf cid
  let h := harvested_count cf pf cid
  let r := bed_rate t h
  (t, h, r, classify_rate r)

/-- app2.py line 113 (same as app.py line 26): top KPI `total_colhido =
colheitas['quantidade_colhida'].sum() if not colheitas.empty else 0` —
computed over the UNFILTERED colheitas table (the filtered view `p` of
lines 85-107 is not consulted); pandas sum skips NaN. -/
def app2_total_colhido (colheitas : ChildDF) : ℚ :=
  if colheitas.rows.isEmpty then 0
  else (colheitas.rows.map (fun r => r.qty.getD 0)).sum

/-- app.py lines 27-29 (the inline ratio of app2.py line 123 is
identical): `num_plantios = plantios.shape[0]`, `plantios_colhidos =
colheitas['plantio_id'].nunique()`, `taxa_sucesso = plantios_colhidos /
num_plantios if num_plantios > 0 else 0` — over the unfiltered tables,
with no join between colheitas and plantios. -/
def taxa_sucesso (plantios : List PlantioRow) (colheitas : List ChildRow) : ℚ :=
  let num := plantios.length
  let colhidos := (colheitas.filterMap (·.pid)).dedup.length
  if 0 < num then (colhidos : ℚ) / num else 0

/-- app2.py lines 257 and 260: `obs_f = obs[obs['plantio_id'].isin(
p['plantio_id'])]` (and `col_f` likewise) — a child row is kept when its
`plantio_id` equals some filtered planting's `plantio_id`; pandas `isin`
matches null against null, which `Option` `BEq` reproduces. -/
def app2_child_filter (child : List ChildRow) (p : List PlantioRow) : List ChildRow :=
  child.filter (fun r => p.any (fun pr => r.pid == pr.plantio_id))

/-- Round half to even on rationals: the behaviour of the pandas/numpy
`Series.round()` used at app_enhanced.py line 136. -/
def roundHalfEven (q : ℚ) : Int :=
  let f := ⌊q⌋
  let r := q - f
  if r < 1/2 then f
  else if 1/2 < r then f + 1
  else if Even f then f else f + 1

/-- app_enhanced.py line 136: `colheitas['quantidade_colhida'] =
pd.to_numeric(..., errors='coerce').fillna(0).round().astype(int)` —
the input after `to_numeric` is number-or-missing; missing is filled
with 0, then the value is rounded (half to even) to an integer.
No clamping of negative values is performed. -/
def coerce_quantidade (v : Option ℚ) : Int :=
  roundHalfEven (v.getD 0)

/-- Descending insertion (by summed value) used to model
`sort_values('quantidade_colhida', ascending=False)`. -/
def insertDesc (x : Option String × ℚ) :
    List (Option String × ℚ) → List (Option String × ℚ)
  | [] => [x]
  | y :: ys => if y.2 ≤ x.2 then x :: y :: ys else y :: insertDesc x ys

/-- Descending sort by summed value. -/
def sortDesc : List (Option String × ℚ) → List (Option String × ℚ)
  | [] => []
  | x :: xs => insertDesc x (sortDesc xs)

/-- app.py line 72 / app2.py line 171: `prod.groupby('nome_comum',
dropna=?).quantidade_colhida.sum().reset_index().sort_values(
'quantidade_colhida', ascending=False)`. A row is a (group key, value)
pair; `dropna = false` (app.py) keeps a null-keyed group, `dropna = true`
(app2.py's pandas default) discards null-keyed rows before grouping. -/
def grouped_sum (dropna : Bool) (rows : List (Option String × ℚ)) :
    List (Option String × ℚ) :=
  let rows' := if dropna then rows.filter (fun r => r.1.isSome) else rows
  let keys := (rows'.map (·.1)).dedup
  let sums := keys.map (fun k => (k, ((rows'.filter (fun r => decide (r.1 = k))).map (·.2)).sum))
  sortDesc sums

/-- Total of the value column of a (group key, value) row list — the
`total_harvested` of the same input (sum of quantity, 0 for empty). -/
def total_quant (rows : List (Option String × ℚ)) : ℚ :=
  (rows.map (·.2)).sum

/-- Does the character sequence `t` start the sequence given as second
argument? (Building block for literal substring containment.) -/
def startsWithSeq : List Char → List Char → Bool
  | [], _ => true
  | _ :: _, [] => false
  | a :: as, b :: bs => a == b && startsWithSeq as bs

/-- Literal substring containment on character sequences: the spec's
reading of "contains the term". The code's `str.contains` is regex-based
(see `regexSearch`); the two agree exactly on terms that use no regex
metacharacter. -/
def occursIn (t : List Char) : List Char → Bool
  | [] => startsWithSeq t []
  | b :: bs => startsWithSeq t (b :: bs) || occursIn t bs

/-- Python `str.lower()` on the character repertoire of this data (ASCII
plus the Latin-1 letters, which covers Portuguese text): the uppercase
ASCII letters and the Latin-1 uppercase letters U+00C0-U+00DE other than
the multiplication sign map to their lowercase forms 32 code points
higher; every other character is unchanged (case mapping outside Latin-1
is not modelled). -/
def pyToLower (c : Char) : Char :=
  if 'A' ≤ c && c ≤ 'Z' then Char.ofNat (c.toNat + 32)
  else if 'À' ≤ c && c ≤ 'Þ' && c ≠ '×' then Char.ofNat (c.toNat + 32)
  else c

/-- Lower-casing of a character sequence (`.str.lower()` / `.lower()`). -/
def toLowerSeq (s : List Char) : List Char := s.map pyToLower

/-- One atom of the regular-expression fragment used to model pandas
`str.contains` (which defaults to `regex=True`): the any-character
metacharacter `.` or a literal character. -/
inductive RegexAtom
  | dot
  | lit (c : Char)
  deriving DecidableEq, Repr

/-- The metacharacters of Python `re` patterns. -/
def regexSpecial (c : Char) : Bool :=
  c ∈ ['.', '*', '+', '?', '(', ')', '[', ']', '\x7b', '\x7d', '|', '^', '$', '\\']

/-- Parse a pattern of the literal/dot regex fragment: `.` is the
any-character atom and a non-special character matches itself. A pattern
using any other metacharacter (quantifiers, classes, groups, anchors,
alternation, escapes — including the malformed patterns on which
`re.compile` raises) is outside the modelled fragment and parses to
`none`; no claim is settled against that region. -/
def parseRegex : List Char → Option (List RegexAtom)
  | [] => some []
  | c :: cs =>
    if c = '.' then (parseRegex cs).map (RegexAtom.dot :: ·)
    else if regexSpecial c then none
    else (parseRegex cs).map (RegexAtom.lit c :: ·)

/-- Does one regex atom match one character? -/
def atomMatches : RegexAtom → Char → Bool
  | .dot, _ => true
  | .lit c, d => c == d

/-- Does the atom sequence match a prefix of the text? -/
def matchesPrefix : List RegexAtom → List Char → Bool
  | [], _ => true
  | _ :: _, [] => false
  | a :: as, c :: cs => atomMatches a c && matchesPrefix as cs

/-- `re.search` on the fragment: the atom sequence matches at some
position of the text — the semantics of the pandas `str.contains` calls
of app2.py lines 104-105 under the default `regex=True`. -/
def regexSearch (atoms : List RegexAtom) : List Char → Bool
  | [] => matchesPrefix atoms []
  | c :: cs => matchesPrefix atoms (c :: cs) || regexSearch atoms cs

/-- One row of the observacoes table as used by the search filter:
`plantio_id` (integer-or-missing) and `comentarios` (text-or-missing). -/
structure ObsRow where
  plantio_id : Option Int
  comentarios : Option (List Char)
  deriving DecidableEq, Repr

/-- The spec's reading of "its own notes contain the term": literal
case-insensitive substring containment. -/
def notes_contain_term (t : List Char) (r : PlantioRow) : Bool :=
  occursIn (toLowerSeq t) (toLowerSeq (r.notas.getD []))

/-- The spec's reading of "a comment containing the term", for one
observation row: literal case-insensitive substring containment. -/
def obs_contain_term (t : List Char) (o : ObsRow) : Bool :=
  occursIn (toLowerSeq t) (toLowerSeq (o.comentarios.getD []))

/-- app2.py lines 101-107: the `search_text` filter. `search_text` is the
already-stripped term (the code guards on `strip() != ""`); it is
lower-cased and then used as a regular expression by the two
`str.contains` calls (pandas default `regex=True`, modelled by
`parseRegex`/`regexSearch`); `plantios_with_obs` is the unique
`plantio_id`s of observations whose comment matches; a planting is kept
when its own notes match OR its `plantio_id` is `isin` that set (pandas
`isin` matches null to null, as `Option` `BEq` does). A term outside the
modelled regex fragment gives `none`. -/
def search_filter (search_text : List Char) (p : List PlantioRow)
    (observ : List ObsRow) : Option (List PlantioRow) :=
  let s := toLowerSeq search_text
  match parseRegex s with
  | none => none
  | some atoms =>
    let plantios_with_obs := ((observ.filter (fun o =>
        regexSearch atoms (toLowerSeq (o.comentarios.getD [])))).map (·.plantio_id)).dedup
    some (p.filter (fun r => regexSearch atoms (toLowerSeq (r.notas.getD []))
        || r.plantio_id ∈ plantios_with_obs))

/-- The six input sources as present-or-missing files (table contents are
irrelevant to the load contract, kept abstract as `List Nat`). -/
structure Sources where
  canteiros : Option (List Nat)
  especies : Option (List Nat)
  plantios : Option (List Nat)
  observacoes : Option (List Nat)
  colheitas : Option (List Nat)
  eventos : Option (List Nat)
  deriving DecidableEq, Repr

/-- app_enhanced.py lines 42-58, `safe_load` for one source: a missing
file produces `st.error(...)` (the reported warning, second component
`true`) and an empty DataFrame; a present file is read and returned. -/
def safe_load (src : Option (List Nat)) : List Nat × Bool :=
  match src with
  | none => ([], true)
  | some t => (t, false)

/-- app2.py lines 17-37, `load_data`: the loop of lines 28-30 reports
`st.error` for every missing file (first component: the reported
warnings), but lines 31-36 then call `pd.read_csv` on each path
unconditionally, so the first missing file raises `FileNotFoundError`
and the whole load fails (the `Except.error` case). -/
def load_data (s : Sources) :
    List String × Except String
      (List Nat × List Nat × List Nat × List Nat × List Nat × List Nat) :=
  let warnings :=
    (if s.canteiros.isNone then ["canteiros.csv"] else []) ++
    (if s.especies.isNone then ["especies.csv"] else []) ++
    (if s.plantios.isNone then ["plantios.csv"] else []) ++
    (if s.observacoes.isNone then ["observacoes.csv"] else []) ++
    (if s.colheitas.isNone then ["colheitas.csv"] else []) ++
    (if s.eventos.isNone then ["eventos_manejo.csv"] else [])
  match s.canteiros, s.especies, s.plantios, s.observacoes, s.colheitas, s.eventos with
  | some c, some e, some p, some o, some h, some v => (warnings, .ok (c, e, p, o, h, v))
  | _, _, _, _, _, _ => (warnings, .error "FileNotFoundError")

/-- The single planting of the spec's §8 end-to-end scenario (id 100,
bed 1, species 1, planted on day 0, species name "Tomato" and bed name
"A" after the load-time joins), as the plantios table with the full
schema present. -/
def plantios8 : PlantiosDF :=
  { hasPlantioId := true, hasCanteiroId := true, hasDataPlantio := true
    hasEspecieNome := true, hasCanteiroNome := true, hasResponsavel := true
    rows := [{ plantio_id := some 100, canteiro_id := some 1, especie_id := some 1
               data_plantio := some 0, especie_nome := some "Tomato"
               canteiro_nome := some "A", responsavel := none, notas := none }] }

/-- The single harvest of the §8 scenario: planting 100, quantity 5. -/
def colheitas8 : ChildDF :=
  ⟨true, true, [⟨some 100, some 5⟩]⟩

/-- The §8 filter criteria selecting the non-existent species "Basil"
(date range covering the planting date, other selectors at their
sentinels). -/
def basil_criteria : Criteria :=
  ⟨0, 0, "Basil", "Todos", "Todos"⟩

/-- A plantios selection containing a single planting whose id is -1 —
a legal integer id, which happens to collide with the `fillna(-1)`
sentinel of `filter_by_plantios_table`. -/
def plantios_neg : PlantiosDF :=
  { plantios8 with rows := [{ plantio_id := some (-1), canteiro_id := some 1
                              especie_id := some 1, data_plantio := some 0
                              especie_nome := some "Tomato", canteiro_nome := some "A"
                              responsavel := none, notas := none }] }

/-- A child table with one row whose `plantio_id` fails to coerce
(none = NaN after `to_numeric`). -/
def child_nan : ChildDF :=
  ⟨true, false, [⟨none, none⟩]⟩

/-- A date range whose start (day 20) is after its end (day 5), other
selectors at their sentinels: the structurally invalid configuration of
the spec's §7. -/
def bad_range_criteria : Criteria :=
  ⟨20, 5, "Todas", "Todos", "Todos"⟩

/-- A planting whose own notes ("ab") do not contain the search term. -/
def search_p0 : PlantioRow :=
  { plantio_id := some 100, canteiro_id := none, especie_id := none
    data_plantio := none, especie_nome := none, canteiro_nome := none
    responsavel := none, notas := some ['a', 'b'] }

/-- An observation linked to planting 100 whose comment ("zxy") contains
the search term "x". -/
def search_o0 : ObsRow :=
  ⟨some 100, some ['z', 'x', 'y']⟩

/-- Membership in a descending insertion. -/
theorem mem_insertDesc (x a : Option String × ℚ) (l : List (Option String × ℚ)) :
    a ∈ insertDesc x l ↔ a = x ∨ a ∈ l := by
  induction l with
  | nil => simp [insertDesc]
  | cons y ys ih =>
    rw [insertDesc]
    by_cases hyx : y.2 ≤ x.2
    · simp only [if_pos hyx, List.mem_cons]
    · simp only [if_neg hyx, List.mem_cons, ih]
      tauto

/-- Descending insertion preserves descending sortedness. -/
theorem pairwise_insertDesc (x : Option String × ℚ) (l : List (Option String × ℚ))
    (h : l.Pairwise (fun a b => b.2 ≤ a.2)) :
    (insertDesc x l).Pairwise (fun a b => b.2 ≤ a.2) := by
  induction l with
  | nil => simp [insertDesc]
  | cons y ys ih =>
    rw [insertDesc]
    rcases List.pairwise_cons.mp h with ⟨hy, hys⟩
    by_cases hyx : y.2 ≤ x.2
    · rw [if_pos hyx]
      refine List.pairwise_cons.mpr ⟨?_, h⟩
      intro z hz
      rcases List.mem_cons.mp hz with rfl | hz
      · exact hyx
      · exact le_trans (hy z hz) hyx
    · rw [if_neg hyx]
      refine List.pairwise_cons.mpr ⟨?_, ih hys⟩
      intro z hz
      rcases (mem_insertDesc x z ys).mp hz with rfl | hz
      · exact le_of_not_le hyx
      · exact hy z hz

/-- The descending sort is descending-sorted. -/
theorem pairwise_sortDesc (l : List (Option String × ℚ)) :
    (sortDesc l).Pairwise (fun a b => b.2 ≤ a.2) := by
  induction l with
  | nil => simp [sortDesc]
  | cons x xs ih => exact pairwise_insertDesc x (sortDesc xs) ih

/-- Membership is preserved by the descending sort. -/
theorem mem_sortDesc (a : Option String × ℚ) (l : List (Option String × ℚ)) :
    a ∈ sortDesc l ↔ a ∈ l := by
  induction l with
  | nil => simp [sortDesc]
  | cons x xs ih =>
    rw [sortDesc, mem_insertDesc, ih, List.mem_cons]

/-- Descending insertion preserves the sum of values. -/
theorem sum_insertDesc (x : Option String × ℚ) (l : List (Option String × ℚ)) :
    ((insertDesc x l).map (·.2)).sum = x.2 + (l.map (·.2)).sum := by
  induction l with
  | nil => simp [insertDesc]
  | cons y ys ih =>
    rw [insertDesc]
    by_cases hyx : y.2 ≤ x.2
    · rw [if_pos hyx]
      simp
    · rw [if_neg hyx]
      simp only [List.map_cons, List.sum_cons, ih]
      ring

/-- The descending sort preserves the sum of values. -/
theorem sum_sortDesc (l : List (Option String × ℚ)) :
    ((sortDesc l).map (·.2)).sum = (l.map (·.2)).sum := by
  induction l with
  | nil => rfl
  | cons x xs ih =>
    rw [sortDesc, sum_insertDesc, ih, List.map_cons, List.sum_cons]

/-- A filter and its complement split the sum of values. -/
theorem sum_filter_split (p : (Option String × ℚ) → Bool) (l : List (Option String × ℚ)) :
    ((l.filter p).map (·.2)).sum + ((l.filter (fun a => !p a)).map (·.2)).sum
      = (l.map (·.2)).sum := by
  induction l with
  | nil => simp
  | cons x xs ih =>
    by_cases h : p x <;>
      simp only [List.filter_cons, h, Bool.not_true, Bool.not_false, if_pos, if_neg,
        Bool.false_eq_true, not_false_eq_true, List.map_cons, List.sum_cons, ite_true,
        ite_false] <;> linarith [ih]

/-- Filtering for one key commutes away a prior filter that removed a
different key. -/
theorem filter_key_of_filter_not (k k' : Option String) (hkk : k' ≠ k)
    (l : List (Option String × ℚ)) :
    (l.filter (fun r => !decide (r.1 = k))).filter (fun r => decide (r.1 = k'))
      = l.filter (fun r => decide (r.1 = k')) := by
  induction l with
  | nil => rfl
  | cons x xs ih =>
    by_cases hx : x.1 = k'
    · have hxk : ¬ x.1 = k := by rw [hx]; exact hkk
      simp [List.filter_cons, hx, hxk, ih, hkk]
    · by_cases hxk : x.1 = k <;>
        simp [List.filter_cons, hx, hxk, ih, hkk, Ne.symm hkk]

/-- Summing per-key fiber sums over a duplicate-free key list that covers
every row's key gives the total sum of values. -/
theorem sum_fiberwise (keys : List (Option String)) (l : List (Option String × ℚ))
    (hn : keys.Nodup) (hc : ∀ r ∈ l, r.1 ∈ keys) :
    (keys.map (fun k => ((l.filter (fun r => decide (r.1 = k))).map (·.2)).sum)).sum
      = (l.map (·.2)).sum := by
  induction keys generalizing l with
  | nil =>
    cases l with
    | nil => simp
    | cons r rs => exact absurd (hc r (by simp)) (by simp)
  | cons k ks ih =>
    rcases List.nodup_cons.mp hn with ⟨hnk, hns⟩
    have htail : ks.map (fun k' => ((l.filter (fun r => decide (r.1 = k'))).map (·.2)).sum)
        = ks.map (fun k' =>
            (((l.filter (fun r => !decide (r.1 = k))).filter
              (fun r => decide (r.1 = k'))).map (·.2)).sum) := by
      apply List.map_congr_left
      intro k' hk'
      rw [filter_key_of_filter_not k k' (fun h => hnk (h ▸ hk')) l]
    have hcov : ∀ r ∈ l.filter (fun r => !decide (r.1 = k)), r.1 ∈ ks := by
      intro r hr
      rcases List.mem_filter.mp hr with ⟨hrl, hrk⟩
      rcases List.mem_cons.mp (hc r hrl) with h | h
      · exact absurd (decide_eq_true h) (by simpa using hrk)
      · exact h
    calc (List.map (fun k' => ((l.filter (fun r => decide (r.1 = k'))).map (·.2)).sum)
            (k :: ks)).sum
        = ((l.filter (fun r => decide (r.1 = k))).map (·.2)).sum
            + (ks.map (fun k' =>
                (((l.filter (fun r => !decide (r.1 = k))).filter
                  (fun r => decide (r.1 = k'))).map (·.2)).sum)).sum := by
          rw [List.map_cons, List.sum_cons, htail]
      _ = ((l.filter (fun r => decide (r.1 = k))).map (·.2)).sum
            + ((l.filter (fun r => !decide (r.1 = k))).map (·.2)).sum := by
          rw [ih (l.filter (fun r => !decide (r.1 = k))) hns hcov]
      _ = (l.map (·.2)).sum := sum_filter_split _ l

/-- Rounding half-to-even fixes every integer. -/
theorem roundHalfEven_intCast (n : ℤ) : roundHalfEven (n : ℚ) = n := by
  simp only [roundHalfEven, Int.floor_intCast]
  norm_num

/-- Claim C1 is false as stated: the `fillna(-1)` sentinel of
`filter_by_plantios_table` collides with a selected planting id of -1 —
with the selection derived from a planting whose id is -1, the child row
whose `plantio_id` failed to coerce (none) is retained, not excluded. -/
theorem claim_C1_counterexample :
    plantio_ids_of plantios_neg = [-1] ∧
    (filter_by_plantios_table (plantio_ids_of plantios_neg) child_nan).rows
      = [⟨none, none⟩] ∧
    (⟨none, none⟩ : ChildRow).pid = none := by
  exact ⟨by decide, by decide, rfl⟩

/-- Claim C1 (amended): for a child table carrying a `plantio_id` column,
an empty selection propagates to an empty table (never the unfiltered
one); every retained row comes from the input with its sentinel-filled id
in the selection; and a row whose `plantio_id` fails to coerce is excluded
provided -1 (the `fillna` sentinel) is not itself a selected id. app2.py's
`obs_f`/`col_f` propagation likewise yields an empty table on an empty
selection. -/
theorem claim_C1 (ids : List Int) (df : ChildDF) (hcol : df.hasPidCol = true) :
    (ids = [] → (filter_by_plantios_table ids df).rows = []) ∧
    (∀ r ∈ (filter_by_plantios_table ids df).rows,
        r ∈ df.rows ∧ r.pid.getD (-1) ∈ ids) ∧
    ((-1 : Int) ∉ ids →
        ∀ r ∈ (filter_by_plantios_table ids df).rows, r.pid ≠ none) ∧
    (∀ child : List ChildRow, app2_child_filter child [] = []) := by
  have h4 : ∀ child : List ChildRow, app2_child_filter child [] = [] := by
    intro child
    simp [app2_child_filter]
  unfold filter_by_plantios_table
  by_cases he : df.rows.isEmpty
  · rw [if_pos he]
    exact ⟨fun _ => rfl, fun r hr => absurd hr (by simp),
           fun _ r hr => absurd hr (by simp), h4⟩
  · rw [if_neg he, if_pos hcol]
    by_cases hids : ids.isEmpty
    · rw [if_pos hids]
      exact ⟨fun _ => rfl, fun r hr => absurd hr (by simp),
             fun _ r hr => absurd hr (by simp), h4⟩
    · rw [if_neg hids]
      refine ⟨?_, ?_, ?_, h4⟩
      · intro h
        subst h
        simp at hids
      · intro r hr
        rcases List.mem_filter.mp hr with ⟨h1, h2⟩
        exact ⟨h1, of_decide_eq_true h2⟩
      · intro hneg r hr hpid
        rcases List.mem_filter.mp hr with ⟨h1, h2⟩
        have hmem := of_decide_eq_true h2
        rw [hpid] at hmem
        exact hneg hmem

/-- Witness for C1: on the §8 colheitas table (which carries the
`plantio_id` column) an empty selection propagates to an empty table. -/
theorem claim_C1_witness :
    colheitas8.hasPidCol = true ∧ (filter_by_plantios_table [] colheitas8).rows = [] :=
  ⟨rfl, (claim_C1 [] colheitas8 rfl).1 rfl⟩

/-- Claim C2 is false as stated: with the §8 data, app2.py's top KPI
`total_colhido` (line 113) reads the unfiltered colheitas table — it is
5, not 0, regardless of the species filter. -/
theorem claim_C2_counterexample :
    app2_total_colhido colheitas8 = 5 ∧ app2_total_colhido colheitas8 ≠ 0 := by
  have h : app2_total_colhido colheitas8 = 5 := by
    simp [app2_total_colhido, colheitas8]
  exact ⟨h, by rw [h]; norm_num⟩

/-- Claim C2 (amended): app_enhanced.py's dashboard metrics are
recomputed from the filtered selection — on the §8 data with the
non-existent species "Basil" the selection is empty, the filtered
colheitas are empty, `total_colhido` is 0, `plantios_colhidos` is 0, and
bed 1 reports (total 0, harvested 0, rate 0, critical); app.py's
`taxa_sucesso` (like app2.py's top KPIs) is computed from the unfiltered
tables and stays 1. -/
theorem claim_C2 :
    (filter_plantios basil_criteria plantios8).rows = [] ∧
    plantio_ids_of (filter_plantios basil_criteria plantios8) = [] ∧
    dash_total_colhido (filter_by_plantios_table
      (plantio_ids_of (filter_plantios basil_criteria plantios8)) colheitas8) = 0 ∧
    dash_plantios_colhidos (filter_by_plantios_table
      (plantio_ids_of (filter_plantios basil_criteria plantios8)) colheitas8) = 0 ∧
    bed_card (filter_plantios basil_criteria plantios8)
      (filter_by_plantios_table
        (plantio_ids_of (filter_plantios basil_criteria plantios8)) colheitas8) 1
      = (0, 0, 0, BedStatus.critical) ∧
    taxa_sucesso plantios8.rows colheitas8.rows = 1 := by
  have hpf : filter_plantios basil_criteria plantios8 = { plantios8 with rows := [] } := by
    decide
  have hcf : filter_by_plantios_table
      (plantio_ids_of (filter_plantios basil_criteria plantios8)) colheitas8
      = ⟨true, true, []⟩ := by decide
  have hcl : classify_rate 0 = .critical := by
    unfold classify_rate
    rw [if_neg (by norm_num), if_neg (by norm_num)]
  have htx : taxa_sucesso plantios8.rows colheitas8.rows = 1 := by
    have h1 : (colheitas8.rows.filterMap (·.pid)).dedup.length = 1 := by decide
    have h2 : plantios8.rows.length = 1 := by decide
    simp only [taxa_sucesso, h1, h2]
    norm_num
  refine ⟨by rw [hpf], by rw [hpf]; rfl, by rw [hcf]; rfl, by rw [hcf]; rfl, ?_, htx⟩
  rw [hcf, hpf]
  have hb : bed_card { plantios8 with rows := [] } (⟨true, true, []⟩ : ChildDF) 1
      = (0, 0, 0, classify_rate 0) := rfl
  rw [hb, hcl]

/-- Claim C3 is false as stated: a negative numeric quantity is not
clamped to 0 — the coercion of app_enhanced.py line 136 rounds it and
keeps it negative. -/
theorem claim_C3_counterexample :
    coerce_quantidade (some (-3)) = -3 ∧ coerce_quantidade (some (-3)) ≠ 0 := by
  have h : coerce_quantidade (some (-3)) = -3 := by
    have hc := roundHalfEven_intCast (-3)
    rw [show ((-3 : ℤ) : ℚ) = (-3 : ℚ) by norm_num] at hc
    simpa [coerce_quantidade] using hc
  exact ⟨h, by rw [h]; decide⟩

/-- Claim C3 (amended): the harvest-quantity coercion maps a missing or
non-numeric input to 0 and rounds a numeric input half-to-even to an
integer; it does not clamp negatives (a negative integer input stays
itself); it is idempotent on every integer — in particular on
already-coerced non-negative integers — and a non-negative input yields a
non-negative output. -/
theorem claim_C3 :
    (∀ n : ℤ, coerce_quantidade (some (n : ℚ)) = n) ∧
    coerce_quantidade none = 0 ∧
    (∀ v : Option ℚ,
      coerce_quantidade (some ((coerce_quantidade v : ℤ) : ℚ)) = coerce_quantidade v) ∧
    (∀ q : ℚ, 0 ≤ q → 0 ≤ coerce_quantidade (some q)) := by
  have hint : ∀ n : ℤ, coerce_quantidade (some (n : ℚ)) = n := fun n => by
    simpa [coerce_quantidade] using roundHalfEven_intCast n
  refine ⟨hint, ?_, fun v => hint _, ?_⟩
  · have h0 := roundHalfEven_intCast 0
    simpa [coerce_quantidade] using h0
  · intro q hq
    have h0 : 0 ≤ ⌊q⌋ := Int.floor_nonneg.mpr hq
    simp only [coerce_quantidade, Option.getD_some, roundHalfEven]
    split_ifs <;> omega

/-- Witness for C3: the coercion at 7, and non-negativity at 5/2. -/
theorem claim_C3_witness :
    coerce_quantidade (some ((7 : ℤ) : ℚ)) = 7 ∧
    (0 : ℚ) ≤ 5/2 ∧ 0 ≤ coerce_quantidade (some (5/2)) :=
  ⟨claim_C3.1 7, by norm_num, claim_C3.2.2.2 (5/2) (by norm_num)⟩

/-- Claim C4 is false as stated: with zero plantings `taxa_sucesso` is
silently 0 (not a distinct undefined value), and with orphan harvest
references (pids 7 and 8 against the single §8 planting) it is 2,
outside [0,1]. -/
theorem claim_C4_counterexample :
    taxa_sucesso [] [] = 0 ∧
    taxa_sucesso plantios8.rows [⟨some 7, none⟩, ⟨some 8, none⟩] = 2 ∧
    ¬ (taxa_sucesso plantios8.rows [⟨some 7, none⟩, ⟨some 8, none⟩] ≤ 1) := by
  have h2 : taxa_sucesso plantios8.rows [⟨some 7, none⟩, ⟨some 8, none⟩] = 2 := by
    have ha : (([⟨some 7, none⟩, ⟨some 8, none⟩] : List ChildRow).filterMap
        (·.pid)).dedup.length = 2 := by decide
    have hb : plantios8.rows.length = 1 := by decide
    simp only [taxa_sucesso, ha, hb]
    norm_num
  exact ⟨by simp [taxa_sucesso], h2, by rw [h2]; norm_num⟩

/-- Claim C4 (amended): `taxa_sucesso` is 0 (silently, not a distinct
undefined value) when there are no plantings; when there is at least one
planting and every harvest's coerced `plantio_id` occurs among the
plantings' ids, the ratio lies in [0,1] (without that referential
hypothesis it can exceed 1). -/
theorem claim_C4 (plantios : List PlantioRow) (colheitas : List ChildRow) :
    (plantios.length = 0 → taxa_sucesso plantios colheitas = 0) ∧
    (0 < plantios.length →
      (∀ i ∈ colheitas.filterMap (·.pid), ∃ r ∈ plantios, r.plantio_id = some i) →
        0 ≤ taxa_sucesso plantios colheitas ∧ taxa_sucesso plantios colheitas ≤ 1) := by
  constructor
  · intro h
    simp [taxa_sucesso, h]
  · intro hpos hsub
    have hle : (colheitas.filterMap (·.pid)).dedup.length ≤ plantios.length := by
      have hsubset : (colheitas.filterMap (·.pid)) ⊆ (plantios.filterMap (·.plantio_id)) := by
        intro i hi
        rcases hsub i hi with ⟨r, hr, hid⟩
        exact List.mem_filterMap.mpr ⟨r, hr, hid⟩
      calc (colheitas.filterMap (·.pid)).dedup.length
          = (colheitas.filterMap (·.pid)).toFinset.card := (List.card_toFinset _).symm
        _ ≤ (plantios.filterMap (·.plantio_id)).toFinset.card := by
            apply Finset.card_le_card
            intro i hi
            rw [List.mem_toFinset] at hi ⊢
            exact hsubset hi
        _ ≤ (plantios.filterMap (·.plantio_id)).length := (plantios.filterMap _).toFinset_card_le
        _ ≤ plantios.length := List.length_filterMap_le _ _
    simp only [taxa_sucesso]
    rw [if_pos hpos]
    constructor
    · positivity
    · rw [div_le_one (by exact_mod_cast hpos)]
      exact_mod_cast hle

/-- Witness for C4: on the §8 data (one planting, one well-referenced
harvest) the ratio is within [0,1]. -/
theorem claim_C4_witness :
    0 < plantios8.rows.length ∧
    0 ≤ taxa_sucesso plantios8.rows colheitas8.rows ∧
    taxa_sucesso plantios8.rows colheitas8.rows ≤ 1 :=
  ⟨by decide, ((claim_C4 plantios8.rows colheitas8.rows).2 (by decide) (by decide)).1,
   ((claim_C4 plantios8.rows colheitas8.rows).2 (by decide) (by decide)).2⟩

/-- Claim C5 is false as stated for app2.py: with canteiros.csv missing,
`load_data` reports the warning but then `pd.read_csv` raises, so the
whole load fails instead of degrading to an empty table. -/
theorem claim_C5_counterexample :
    (load_data ⟨none, some [], some [], some [], some [], some []⟩).2
      = Except.error "FileNotFoundError" ∧
    "canteiros.csv" ∈ (load_data ⟨none, some [], some [], some [], some [], some []⟩).1 :=
  ⟨rfl, by simp [load_data]⟩

/-- Claim C5 (amended): in app_enhanced.py each of the six sources is
read through `safe_load`, where a missing source yields an empty table
plus a reported warning and a present source is read as-is, so the load
never fails; in app2.py's `load_data` a missing source is reported as a
warning but the load then fails (it succeeds exactly when all six sources
are present). -/
theorem claim_C5 :
    (∀ src : Option (List Nat), src = none → safe_load src = ([], true)) ∧
    (∀ (src : Option (List Nat)) (t : List Nat), src = some t → safe_load src = (t, false)) ∧
    (∀ s : Sources, exceptIsOk (load_data s).2
      = (s.canteiros.isSome && s.especies.isSome && s.plantios.isSome &&
         s.observacoes.isSome && s.colheitas.isSome && s.eventos.isSome)) ∧
    (∀ s : Sources, s.canteiros = none → "canteiros.csv" ∈ (load_data s).1) := by
  refine ⟨?_, ?_, ?_, ?_⟩
  · rintro src rfl
    rfl
  · rintro src t rfl
    rfl
  · rintro ⟨c, e, p, o, h, v⟩
    cases c <;> cases e <;> cases p <;> cases o <;> cases h <;> cases v <;> rfl
  · intro s hc
    simp [load_data, hc]

/-- Witness for C5: a missing canteiros source degrades in `safe_load`,
a present one loads, and app2's `load_data` reports the warning. -/
theorem claim_C5_witness :
    safe_load (none : Option (List Nat)) = ([], true) ∧
    safe_load (some ([1] : List Nat)) = ([1], false) ∧
    "canteiros.csv" ∈ (load_data ⟨none, some [], some [], some [], some [], some []⟩).1 :=
  ⟨claim_C5.1 none rfl, claim_C5.2.1 (some [1]) [1] rfl,
   claim_C5.2.2.2 ⟨none, some [], some [], some [], some [], some []⟩ rfl⟩

/-- Unfolding `grouped_sum` to its sort-of-fiber-sums form. -/
theorem grouped_sum_eq (dropna : Bool) (rows : List (Option String × ℚ)) :
    grouped_sum dropna rows
      = sortDesc (((if dropna then rows.filter (fun r => r.1.isSome) else rows).map
            (·.1)).dedup.map
          (fun k => (k, (((if dropna then rows.filter (fun r => r.1.isSome) else rows).filter
            (fun r => decide (r.1 = k))).map (·.2)).sum))) := rfl

/-- The sorted fiber sums of a row list total to the row list's total. -/
theorem total_sortDesc_sums (l : List (Option String × ℚ)) :
    total_quant (sortDesc ((l.map (·.1)).dedup.map
        (fun k => (k, ((l.filter (fun r => decide (r.1 = k))).map (·.2)).sum))))
      = total_quant l := by
  unfold total_quant
  rw [sum_sortDesc, List.map_map]
  exact sum_fiberwise _ l (List.nodup_dedup _)
    (fun r hr => List.mem_dedup.mpr (List.mem_map.mpr ⟨r, hr, rfl⟩))

/-- Claim C6 is false as stated for app2.py's variant: with the pandas
default `dropna=True` (app2.py line 171) a null-keyed row is dropped, so
the grouped output is empty and its values sum to 0, not to the input
total 5. -/
theorem claim_C6_counterexample :
    grouped_sum true [(none, (5 : ℚ))] = [] ∧
    total_quant (grouped_sum true [(none, (5 : ℚ))]) = 0 ∧
    total_quant [(none, (5 : ℚ))] = 5 ∧ (0 : ℚ) ≠ 5 := by
  have h : grouped_sum true [(none, (5 : ℚ))] = [] := by decide
  exact ⟨h, by rw [h]; rfl, by simp [total_quant], by norm_num⟩

/-- Claim C6 (amended): the `grouped_sum` of app.py line 72
(`dropna=False`) is sorted descending by sum, keeps a null group key as
its own bucket, and its values sum to the total input sum; app2.py's
variant (pandas default `dropna=True`) drops null-keyed rows, so its
values sum only to the total over rows with a non-null key. -/
theorem claim_C6 (rows : List (Option String × ℚ)) :
    (grouped_sum false rows).Pairwise (fun a b => b.2 ≤ a.2) ∧
    total_quant (grouped_sum false rows) = total_quant rows ∧
    (∀ r ∈ rows, r.1 = none → none ∈ (grouped_sum false rows).map (·.1)) ∧
    total_quant (grouped_sum true rows) = total_quant (rows.filter (fun r => r.1.isSome)) := by
  refine ⟨?_, ?_, ?_, ?_⟩
  · rw [grouped_sum_eq]
    exact pairwise_sortDesc _
  · rw [grouped_sum_eq]
    simp only [Bool.false_eq_true, if_false]
    exact total_sortDesc_sums rows
  · intro r hr hrn
    have hkey : (none : Option String) ∈ (rows.map (·.1)).dedup :=
      List.mem_dedup.mpr (List.mem_map.mpr ⟨r, hr, hrn⟩)
    rw [grouped_sum_eq]
    simp only [Bool.false_eq_true, if_false]
    apply List.mem_map.mpr
    exact ⟨(none, ((rows.filter (fun x => decide (x.1 = none))).map (·.2)).sum),
           (mem_sortDesc _ _).mpr (List.mem_map.mpr ⟨none, hkey, rfl⟩), rfl⟩
  · rw [grouped_sum_eq]
    simp only [if_true]
    exact total_sortDesc_sums _

/-- Witness for C6: a null-keyed row survives `dropna=False` grouping. -/
theorem claim_C6_witness :
    ((none, (5 : ℚ)) : Option String × ℚ) ∈ [((none : Option String), (5 : ℚ))] ∧
    (none : Option String)
      ∈ (grouped_sum false [((none : Option String), (5 : ℚ))]).map (·.1) :=
  ⟨List.mem_singleton.mpr rfl,
   (claim_C6 [((none : Option String), (5 : ℚ))]).2.2.1 (none, 5)
     (List.mem_singleton.mpr rfl) rfl⟩

/-- Claim C7 (confirmed): the bed-status classification is a pure
function of the rate with bands inclusive on the upper side — rate ≥ 0.6
is good, 0.25 ≤ rate < 0.6 is attention, rate < 0.25 is critical — and a
bed with zero plantings in the selection has rate 0 and classifies
critical. -/
theorem claim_C7 :
    (∀ rate : ℚ,
      (0.6 ≤ rate → classify_rate rate = .good) ∧
      (0.25 ≤ rate → rate < 0.6 → classify_rate rate = .attention) ∧
      (rate < 0.25 → classify_rate rate = .critical)) ∧
    (∀ h : Nat, bed_rate 0 h = 0 ∧ classify_rate (bed_rate 0 h) = .critical) := by
  have hcl0 : classify_rate 0 = .critical := by
    unfold classify_rate
    rw [if_neg (by norm_num), if_neg (by norm_num)]
  constructor
  · intro rate
    refine ⟨fun h1 => ?_, fun h1 h2 => ?_, fun h1 => ?_⟩
    · unfold classify_rate
      rw [if_pos h1]
    · unfold classify_rate
      rw [if_neg (not_le.mpr h2), if_pos h1]
    · unfold classify_rate
      rw [if_neg (not_le.mpr (by linarith)), if_neg (not_le.mpr h1)]
  · intro h
    have hb : bed_rate 0 h = 0 := rfl
    exact ⟨hb, by rw [hb, hcl0]⟩

/-- Witness for C7: the three boundary rates of §8 and a zero-planting
bed. -/
theorem claim_C7_witness :
    classify_rate 0.6 = .good ∧ classify_rate 0.59999 = .attention ∧
    classify_rate 0.24999 = .critical ∧
    bed_rate 0 3 = 0 ∧ classify_rate (bed_rate 0 3) = .critical :=
  ⟨(claim_C7.1 0.6).1 (by norm_num),
   (claim_C7.1 0.59999).2.1 (by norm_num) (by norm_num),
   (claim_C7.1 0.24999).2.2 (by norm_num),
   (claim_C7.2 3).1, (claim_C7.2 3).2⟩

/-- A metacharacter-free pattern parses to its literal atoms. -/
theorem parseRegex_plain (s : List Char) (h : ∀ c ∈ s, regexSpecial c = false) :
    parseRegex s = some (s.map RegexAtom.lit) := by
  induction s with
  | nil => rfl
  | cons c cs ih =>
    have hc : regexSpecial c = false := h c (by simp)
    have hdot : ¬ c = '.' := by
      intro hh
      rw [hh] at hc
      simp [regexSpecial] at hc
    simp [parseRegex, hdot, hc, ih (fun d hd => h d (List.mem_cons_of_mem c hd))]

/-- On literal atoms the prefix match is the literal prefix test. -/
theorem matchesPrefix_map_lit (s text : List Char) :
    matchesPrefix (s.map RegexAtom.lit) text = startsWithSeq s text := by
  induction s generalizing text with
  | nil => cases text <;> rfl
  | cons c cs ih =>
    cases text with
    | nil => rfl
    | cons d ds => simp [matchesPrefix, startsWithSeq, atomMatches, ih]

/-- On literal atoms the regex search is literal substring containment. -/
theorem regexSearch_map_lit (s text : List Char) :
    regexSearch (s.map RegexAtom.lit) text = occursIn s text := by
  induction text with
  | nil => simp [regexSearch, occursIn, matchesPrefix_map_lit]
  | cons c cs ih => simp [regexSearch, occursIn, matchesPrefix_map_lit, ih]

/-- Claim C8 is false as stated: `str.contains` defaults to
`regex=True`, so the term "." is the any-character pattern — the
planting whose notes are "ab" (which contain no dot), with no
observations at all, is still included by the code's filter. -/
theorem claim_C8_counterexample :
    (['.'] : List Char) ≠ [] ∧
    search_filter ['.'] [search_p0] [] = some [search_p0] ∧
    notes_contain_term ['.'] search_p0 = false := by
  exact ⟨by decide, by decide, by decide⟩

/-- Claim C8 (amended): for a non-empty search term whose lower-cased
form contains no regex metacharacter, the filter succeeds and a planting
passes iff it is in the input and its own notes contain the term
(case-insensitively) or some observation with the same `plantio_id` has
a comment containing it — OR semantics across the two fields. For a
regex-special term the code's matching diverges from substring
containment. -/
theorem claim_C8 (t : List Char) (ht : t ≠ [])
    (hplain : ∀ c ∈ toLowerSeq t, regexSpecial c = false)
    (p : List PlantioRow) (observ : List ObsRow) (r : PlantioRow) :
    ∃ res, search_filter t p observ = some res ∧
      (r ∈ res ↔
        r ∈ p ∧ (notes_contain_term t r = true ∨
          ∃ o ∈ observ, obs_contain_term t o = true ∧ o.plantio_id = r.plantio_id)) := by
  have hparse := parseRegex_plain (toLowerSeq t) hplain
  have hsf : search_filter t p observ
      = some (p.filter (fun pr => notes_contain_term t pr
          || pr.plantio_id ∈
              ((observ.filter (fun o => obs_contain_term t o)).map (·.plantio_id)).dedup)) := by
    simp only [search_filter, hparse, regexSearch_map_lit, notes_contain_term,
      obs_contain_term]
  refine ⟨_, hsf, ?_⟩
  simp only [List.mem_filter, Bool.or_eq_true, decide_eq_true_eq]
  constructor
  · rintro ⟨hp, hm | hin⟩
    · exact ⟨hp, Or.inl hm⟩
    · refine ⟨hp, Or.inr ?_⟩
      rw [List.mem_dedup] at hin
      rcases List.mem_map.mp hin with ⟨o, ho, hoid⟩
      rcases List.mem_filter.mp ho with ⟨ho1, ho2⟩
      exact ⟨o, ho1, ho2, hoid⟩
  · rintro ⟨hp, hm | ⟨o, ho, hom, hoid⟩⟩
    · exact ⟨hp, Or.inl hm⟩
    · refine ⟨hp, Or.inr ?_⟩
      rw [List.mem_dedup]
      exact List.mem_map.mpr ⟨o, List.mem_filter.mpr ⟨ho, hom⟩, hoid⟩

/-- Witness for C8: the plain term "x" — the planting whose notes do not
contain it but whose linked observation comment does is still selected. -/
theorem claim_C8_witness :
    (['x'] : List Char) ≠ [] ∧
    (∀ c ∈ toLowerSeq ['x'], regexSpecial c = false) ∧
    (∃ res, search_filter ['x'] [search_p0] [search_o0] = some res ∧ search_p0 ∈ res) ∧
    notes_contain_term ['x'] search_p0 = false := by
  refine ⟨by decide, by decide, ?_, by decide⟩
  obtain ⟨res, hres, hiff⟩ :=
    claim_C8 ['x'] (by decide) (by decide) [search_p0] [search_o0] search_p0
  exact ⟨res, hres, hiff.mpr ⟨List.mem_singleton.mpr rfl,
    Or.inr ⟨search_o0, List.mem_singleton.mpr rfl, by decide, rfl⟩⟩⟩

/-- Claim C9 is false as stated: a date range with start (20) after end
(5) is not surfaced as a failure — the run returns normally (ok) and the
filtering simply produces an empty selection. -/
theorem claim_C9_counterexample :
    exceptIsOk (filter_plantios_run bad_range_criteria plantios8) = true ∧
    (filter_plantios bad_range_criteria plantios8).rows = [] :=
  ⟨rfl, by decide⟩

/-- Claim C9 (amended): no configuration produces a caller-visible
failure — `filter_plantios` performs no validation and always returns
normally; a date range with start after end merely yields an empty
selection whenever the `data_plantio` column is present (no planting date
can satisfy both bounds). -/
theorem claim_C9 (c : Criteria) (df : PlantiosDF)
    (hr : c.dr_end < c.dr_start) (hcol : df.hasDataPlantio = true) :
    filter_plantios_run c df = Except.ok (filter_plantios c df) ∧
    (filter_plantios c df).rows = [] := by
  refine ⟨rfl, ?_⟩
  unfold filter_plantios
  by_cases he : df.rows.isEmpty
  · rw [if_pos he]
    exact List.isEmpty_iff.mp he
  · rw [if_neg he]
    have h1 : df.rows.filter (fun r => dateInRange c r.data_plantio) = [] := by
      rw [List.filter_eq_nil_iff]
      intro r _
      cases hd : r.data_plantio with
      | none => simp [dateInRange]
      | some d =>
        simp only [dateInRange, Bool.and_eq_true, decide_eq_true_eq, not_and]
        intro hs
        omega
    simp [hcol, h1]

/-- Witness for C9: the concrete invalid range (20, 5) on the §8 data. -/
theorem claim_C9_witness :
    bad_range_criteria.dr_end < bad_range_criteria.dr_start ∧
    plantios8.hasDataPlantio = true ∧
    filter_plantios_run bad_range_criteria plantios8
      = Except.ok (filter_plantios bad_range_criteria plantios8) ∧
    (filter_plantios bad_range_criteria plantios8).rows = [] :=
  ⟨by decide, rfl, (claim_C9 bad_range_criteria plantios8 (by decide) rfl).1,
   (claim_C9 bad_range_criteria plantios8 (by decide) rfl).2⟩

/-- Claim C10 (confirmed): a non-empty child table without a
`plantio_id` column is returned by `filter_by_plantios_table` as an
unfiltered copy, even when the selection is empty. -/
theorem claim_C10 (ids : List Int) (df : ChildDF)
    (hcol : df.hasPidCol = false) (hne : df.rows ≠ []) :
    filter_by_plantios_table ids df = df := by
  unfold filter_by_plantios_table
  rw [if_neg (by simpa [List.isEmpty_iff] using hne), hcol]
  simp

/-- Witness for C10: a one-row table without the column passes through
unchanged under the empty selection. -/
theorem claim_C10_witness :
    (⟨false, false, [⟨none, none⟩]⟩ : ChildDF).hasPidCol = false ∧
    (⟨false, false, [⟨none, none⟩]⟩ : ChildDF).rows ≠ [] ∧
    filter_by_plantios_table [] (⟨false, false, [⟨none, none⟩]⟩ : ChildDF)
      = ⟨false, false, [⟨none, none⟩]⟩ :=
  ⟨rfl, by simp, claim_C10 [] _ rfl (by simp)⟩
